import Mathlib

/-!
Verification of the Rackspace cloud adapter (`cloud_browser/cloud/rackspace.py`)
of django-cloud-browser.

The pure logic of the adapter is embedded shallowly: the vendor SDK call
`list_objects_info` is abstracted as a function argument, and each call made to
it is recorded so that claims about which vendor calls are issued can be stated.
Machine-level details (HTTP, authentication) are out of scope; the listing,
collapsing, truncation, timestamp parsing and error-translation logic is
translated directly from the source.
-/

/-- Modelled from the spec: the path separator constant `SEP` comes from
`cloud_browser.common`, which is not under `src/`; the spec (section 6) fixes it
to the single character `/`. -/
def SEP : String := "/"

/-- Python `s.strip(SEP)` with `SEP = "/"`: remove all leading and trailing
`/` characters. -/
def stripSep (s : String) : String :=
  String.mk ((((s.toList).dropWhile (fun c => c == '/')).reverse.dropWhile
    (fun c => c == '/')).reverse)

/-- A raw listing entry as returned by the vendor `list_objects_info` call: a
dictionary that may carry a `name` key (real storage object), a `subdir` key
(implied pseudo-directory), and file metadata keys.  Absent keys are `none`. -/
structure Info where
  name : Option String := none
  subdir : Option String := none
  bytes : Option Nat := none
  content_type : Option String := none
  last_modified : Option String := none
deriving DecidableEq, Repr

/-- Entry types of `cloud_browser.cloud.base.CloudObject.type_cls`:
FILE and SUBDIR. -/
inductive ObjType where
  | file
  | subdir
deriving DecidableEq, Repr

/-- A parsed timestamp (Python `datetime.datetime` restricted to the
second-resolution fields produced by the two `strptime` calls in the source). -/
structure DateTime where
  year : Nat
  month : Nat
  day : Nat
  hour : Nat
  minute : Nat
  second : Nat
deriving DecidableEq, Repr

/-- A `RackspaceObject` as constructed by the source.  Modelled from the spec:
the base class `cloud_browser.cloud.base.CloudObject` is not under `src/`; per
the spec (section 3) an object carries name, size, content type, last-modified
timestamp and an entry type, with the metadata fields absent for entries built
from a bare `subdir` listing entry. -/
structure CBObject where
  name : String
  size : Option Nat := none
  content_type : Option String := none
  last_modified : Option DateTime := none
  obj_type : ObjType
deriving DecidableEq, Repr

/-- Error values: the common taxonomy of `cloud_browser.cloud.errors`
(CloudException and its NoContainerException / NoObjectException subclasses,
modelled from the spec since `errors.py` is not under `src/`) together with the
Python `KeyError` / `ValueError` failures that missing dictionary keys and
malformed timestamps raise in `from_file_info`. -/
inductive CloudErr where
  | cloud (msg : String)
  | noContainer (msg : String)
  | noObject (msg : String)
  | keyError (key : String)
  | valueError (msg : String)
deriving DecidableEq, Repr

/-- Modelled from the spec: the vendor SDK exception classes
(`cloudfiles.errors`, not under `src/`) relevant to the translation table,
plus a catch-all for any other vendor error, each carrying its message. -/
inductive VendorExc where
  | noSuchContainer (msg : String)
  | noSuchObject (msg : String)
  | other (msg : String)
deriving DecidableEq, Repr

/-- The message carried by a vendor exception. -/
def VendorExc.msg : VendorExc → String
  | .noSuchContainer m => m
  | .noSuchObject m => m
  | .other m => m

/-- The static translation table of `RackspaceExceptionWrapper.translations`:
`cloudfiles.errors.NoSuchContainer` maps to `NoContainerException` and
`cloudfiles.errors.NoSuchObject` maps to `NoObjectException`; other vendor
exceptions are not in the table. -/
def translations (e : VendorExc) : Option CloudErr :=
  match e with
  | .noSuchContainer m => some (CloudErr.noContainer m)
  | .noSuchObject m => some (CloudErr.noObject m)
  | .other _ => none

/-- The exception translator `wrap_rs_errors`.  Modelled from the spec: the
wrapping machinery `errors.CloudExceptionWrapper` is not under `src/`; per the
spec (section 4.1) a vendor exception in the table is re-raised as the mapped
common exception and any other vendor exception propagates as a generic
CloudException carrying the original message. -/
def wrap_rs_errors (e : VendorExc) : CloudErr :=
  (translations e).getD (CloudErr.cloud (e.msg))

/- ## Timestamp parsing (`datetime.strptime` at the two fixed formats) -/

/-- Numeric value of a decimal digit character. -/
def digitVal (c : Char) : Nat := c.toNat - 48

/-- Read exactly `n` decimal digits, returning their value and the rest. -/
def readNum (n : Nat) (cs : List Char) : Option (Nat × List Char) :=
  let ds := cs.take n
  if ds.length == n && ds.all Char.isDigit then
    some (ds.foldl (fun a c => a * 10 + digitVal c) 0, cs.drop n)
  else none

/-- Expect one given character. -/
def expectChar (c : Char) : List Char → Option (List Char)
  | [] => none
  | c2 :: rest => if c2 == c then some rest else none

/-- Expect a given literal character sequence. -/
def expectStr : List Char → List Char → Option (List Char)
  | [], cs => some cs
  | _ :: _, [] => none
  | p :: ps, c :: cs => if c == p then expectStr ps cs else none

/-- Gregorian leap year, as `datetime` uses. -/
def isLeap (y : Nat) : Bool :=
  (y % 4 == 0 && y % 100 != 0) || y % 400 == 0

/-- Days in a month of a given year. -/
def daysInMonth (y m : Nat) : Nat :=
  if m == 2 then (if isLeap y then 29 else 28)
  else if m == 4 || m == 6 || m == 9 || m == 11 then 30
  else 31

/-- Field validation performed by `strptime`/`datetime`: month 1..12, day
within the month, hour 0..23, minute 0..59, second 0..61 (leap seconds are
accepted by `%S`). -/
def validDT (y mo d h mi s : Nat) : Bool :=
  decide (1 ≤ mo) && decide (mo ≤ 12) && decide (1 ≤ d) &&
    decide (d ≤ daysInMonth y mo) && decide (h ≤ 23) && decide (mi ≤ 59) &&
    decide (s ≤ 61)

/-- `datetime.strptime(s, "%Y-%m-%dT%H:%M:%S")` on a fully zero-padded
timestamp string, as `from_file_info` uses; `none` models the `ValueError`
raised on a malformed string. -/
def strptimeISO (cs : List Char) : Option DateTime := do
  let (y, cs) ← readNum 4 cs
  let cs ← expectChar '-' cs
  let (mo, cs) ← readNum 2 cs
  let cs ← expectChar '-' cs
  let (d, cs) ← readNum 2 cs
  let cs ← expectChar 'T' cs
  let (h, cs) ← readNum 2 cs
  let cs ← expectChar ':' cs
  let (mi, cs) ← readNum 2 cs
  let cs ← expectChar ':' cs
  let (s, cs) ← readNum 2 cs
  if cs.isEmpty && validDT y mo d h mi s then
    some (DateTime.mk y mo d h mi s)
  else none

/-- Abbreviated weekday names accepted by `%a`. -/
def wkdayNames : List String :=
  ["Mon", "Tue", "Wed", "Thu", "Fri", "Sat", "Sun"]

/-- Abbreviated month names accepted by `%b`, in order. -/
def monthNames : List String :=
  ["Jan", "Feb", "Mar", "Apr", "May", "Jun",
   "Jul", "Aug", "Sep", "Oct", "Nov", "Dec"]

/-- Read a three-letter abbreviation from a fixed name list, returning its
zero-based index and the rest. -/
def readAbbrev (names : List String) (cs : List Char) :
    Option (Nat × List Char) :=
  match names.findIdx? (fun nm => nm == String.mk (cs.take 3)) with
  | some i => some (i, cs.drop 3)
  | none => none

/-- `datetime.strptime(s, "%a, %d %b %Y %H:%M:%S GMT")`, as `from_obj` uses.
The parsed weekday name is validated but, as in Python, does not affect the
resulting date. -/
def strptimeRFC (s : String) : Option DateTime := do
  let cs := s.toList
  let (_, cs) ← readAbbrev wkdayNames cs
  let cs ← expectChar ',' cs
  let cs ← expectChar ' ' cs
  let (d, cs) ← readNum 2 cs
  let cs ← expectChar ' ' cs
  let (mo0, cs) ← readAbbrev monthNames cs
  let cs ← expectChar ' ' cs
  let (y, cs) ← readNum 4 cs
  let cs ← expectChar ' ' cs
  let (h, cs) ← readNum 2 cs
  let cs ← expectChar ':' cs
  let (mi, cs) ← readNum 2 cs
  let cs ← expectChar ':' cs
  let (sec, cs) ← readNum 2 cs
  let cs ← expectStr ((" GMT").toList) cs
  if cs.isEmpty && validDT y (mo0 + 1) d h mi sec then
    some (DateTime.mk y (mo0 + 1) d h mi sec)
  else none

/-- The timestamp pipeline of `from_file_info`:
`info_obj['last_modified'].partition('.')[0]` (the part before the first dot)
fed to `strptime` with the ISO-like format. -/
def parse_iso_lm (s : String) : Option DateTime :=
  strptimeISO ((s.toList).takeWhile (fun c => c != '.'))

/- ## Object construction (`RackspaceObject` classmethods) -/

/-- `RackspaceObject.choose_type`: content type `application/directory` means
SUBDIR, anything else FILE. -/
def choose_type (ct : String) : ObjType :=
  if ct == "application/directory" then ObjType.subdir else ObjType.file

/-- `RackspaceObject.from_subdir`: build from the `subdir` value only. -/
def from_subdir (info : Info) : CBObject :=
  { name := (info.subdir).getD (""), obj_type := ObjType.subdir }

/-- `RackspaceObject.from_file_info`: build from a full file-info entry; a
missing key raises `KeyError` and a malformed timestamp raises `ValueError`,
modelled as error results, in the evaluation order of the source. -/
def from_file_info (info : Info) : Except CloudErr CBObject :=
  match info.last_modified with
  | none => Except.error (CloudErr.keyError ("last_modified"))
  | some lmStr =>
    match parse_iso_lm lmStr with
    | none => Except.error (CloudErr.valueError lmStr)
    | some dt =>
      match info.name, info.bytes, info.content_type with
      | some nm, some sz, some ct =>
        Except.ok { name := nm, size := some sz, content_type := some ct,
                    last_modified := some dt, obj_type := choose_type ct }
      | none, _, _ => Except.error (CloudErr.keyError ("name"))
      | some _, none, _ => Except.error (CloudErr.keyError ("bytes"))
      | some _, some _, none => Except.error (CloudErr.keyError ("content_type"))

/-- `RackspaceObject.from_info`: dispatch on the presence of the `subdir`
key. -/
def from_info (info : Info) : Except CloudErr CBObject :=
  if (info.subdir).isSome then Except.ok (from_subdir info)
  else from_file_info info

/-- `RackspaceObject.from_obj`: build from a fetched native object. -/
structure NativeObj where
  name : String
  size : Nat
  content_type : String
  last_modified : String
deriving DecidableEq, Repr

/-- `RackspaceObject.from_obj`: parse the RFC-1123-like `last_modified` and
copy the metadata; a malformed timestamp raises `ValueError`. -/
def from_obj (fo : NativeObj) : Except CloudErr CBObject :=
  match strptimeRFC (fo.last_modified) with
  | none => Except.error (CloudErr.valueError (fo.last_modified))
  | some dt =>
    Except.ok { name := fo.name, size := some fo.size,
                content_type := some fo.content_type,
                last_modified := some dt,
                obj_type := choose_type fo.content_type }

/- ## Object listing (`RackspaceContainer.get_objects`) -/

/-- Current Rackspace maximum (`RS_MAX_GET_OBJS_LIMIT`). -/
def RS_MAX_GET_OBJS_LIMIT : Nat := 10000

/-- One call to the vendor `list_objects_info` API, recording the `limit`,
`prefix` and `marker` arguments (the `delimiter` argument is always `SEP`). -/
structure VendorCall where
  limit : Nat
  pfx : String
  marker : Option String
deriving DecidableEq, Repr

/-- `path = path + SEP if path else ''`: the prefix actually passed to the
vendor listing call. -/
def dirPath (path : String) : String :=
  if path = "" then "" else path ++ SEP

/-- `info.get('name', name)`: the tracked most-recent name after seeing one
entry. -/
def trackName (entryName prev : Option String) : Option String :=
  match entryName with
  | some n => some n
  | none => prev

/-- The yield condition of `_collapse`: `not name or subdir != name`, where
`name` is the tracked name (a string or Python `None`) and `sub` is the
entry's trimmed `subdir` value. -/
def keepInfo (name : Option String) (sub : String) : Bool :=
  match name with
  | none => true
  | some s => s == "" || sub != s

/-- The `_collapse` generator of `get_objects`: scan entries, track the last
`name` value seen, and drop an entry whenever the tracked name is truthy and
the entry's trimmed `subdir` value equals it. -/
def _collapse (name : Option String) : List Info → List Info
  | [] => []
  | i :: rest =>
    if keepInfo (trackName (i.name) name) (stripSep ((i.subdir).getD (""))) then
      i :: _collapse (trackName (i.name) name) rest
    else
      _collapse (trackName (i.name) name) rest

/-- The post-processing of a raw vendor page in `get_objects`: on a non-empty
page, drop the first entry when the marker is truthy and the first entry's
trimmed `subdir` value equals it, collapse, and truncate to the original
limit; an empty page is returned as is. -/
def processPage (marker : Option String) (origLimit : Nat)
    (object_infos : List Info) : List Info :=
  match object_infos with
  | [] => []
  | first :: rest =>
    let trimmed :=
      match marker with
      | some m =>
        if m ≠ "" ∧ stripSep ((first.subdir).getD ("")) = m then rest
        else first :: rest
      | none => first :: rest
    (_collapse none trimmed).take origLimit

/-- The final list comprehension of `get_objects`: build an object from each
remaining entry, propagating the first construction error. -/
def mapInfos : List Info → Except CloudErr (List CBObject)
  | [] => Except.ok []
  | i :: rest =>
    match from_info i with
    | Except.error e => Except.error e
    | Except.ok o =>
      match mapInfos rest with
      | Except.error e => Except.error e
      | Except.ok os => Except.ok (o :: os)

/-- `RackspaceContainer.get_objects`, with the vendor `list_objects_info`
call abstracted as `lst`.  Returns the operation's result together with the
list of vendor calls issued.  The limit ceiling is enforced first (no vendor
call on violation); otherwise one vendor call with `limit + 1`, the
directory-normalized prefix and the marker is issued and its page is
post-processed. -/
def get_objects (lst : VendorCall → List Info) (path : String)
    (marker : Option String) (limit : Nat) :
    Except CloudErr (List CBObject) × List VendorCall :=
  if RS_MAX_GET_OBJS_LIMIT < limit then
    (Except.error (CloudErr.cloud
      ("Object limit must be less than " ++ toString RS_MAX_GET_OBJS_LIMIT)),
     [])
  else
    (mapInfos (processPage marker limit
        (lst (VendorCall.mk (limit + 1) (dirPath path) marker))),
     [VendorCall.mk (limit + 1) (dirPath path) marker])

/- ## Single fetch operations -/

/-- `RackspaceContainer.get_object` composed with the vendor container's
`get_object`.  Modelled from the spec where the vendor SDK is concerned: the
container's contents are a lookup function, and the vendor raises
`NoSuchObject` for a missing path, which `wrap_rs_errors` translates. -/
def get_object (objs : String → Option NativeObj) (path : String) :
    Except CloudErr CBObject :=
  match objs path with
  | none => Except.error (wrap_rs_errors (VendorExc.noSuchObject path))
  | some o => from_obj o

/-- A native container as reported by the vendor SDK. -/
structure NativeContainer where
  name : String
  object_count : Nat
  size_used : Nat
deriving DecidableEq, Repr

/-- A `RackspaceContainer`'s identifying data as built by
`RackspaceConnection._get_container`. -/
structure CBContainer where
  name : String
  count : Nat
  size : Nat
deriving DecidableEq, Repr

/-- `RackspaceConnection._get_container` composed with the vendor connection's
`get_container`.  Modelled from the spec where the vendor SDK is concerned:
the account's containers are a lookup function, and the vendor raises
`NoSuchContainer` for a missing name, which `wrap_rs_errors` translates. -/
def rs_get_container (conts : String → Option NativeContainer) (path : String) :
    Except CloudErr CBContainer :=
  match conts path with
  | none => Except.error (wrap_rs_errors (VendorExc.noSuchContainer path))
  | some c => Except.ok (CBContainer.mk (c.name) (c.object_count) (c.size_used))

/- ## Claim theorems -/

/-- C3: for every call of `get_objects` with `limit` above the vendor ceiling
10000, the operation fails with a CloudException and issues zero vendor
calls. -/
theorem C3_theorem : ∀ (lst : VendorCall → List Info) (path : String)
    (marker : Option String) (limit : Nat),
    RS_MAX_GET_OBJS_LIMIT < limit →
    get_objects lst path marker limit =
      (Except.error (CloudErr.cloud ("Object limit must be less than 10000")),
       []) := by
  intro lst path marker limit h
  unfold get_objects
  rw [if_pos h]
  rfl

/-- C3 witness: at `limit = 10001`, `get_objects` fails with the CloudException
and the vendor-call trace is empty. -/
theorem C3_witness :
    get_objects (fun _ => []) ("") none 10001 =
      (Except.error (CloudErr.cloud ("Object limit must be less than 10000")),
       []) :=
  C3_theorem (fun _ => []) ("") none 10001 (by decide)

/-- C9: the ceiling check applies to the caller's limit before the compensating
increment: every accepted limit (`limit ≤ 10000`) leads to exactly one vendor
call whose limit argument is the caller's limit plus one, and the result is the
post-processed page rather than a ceiling error. -/
theorem C9_theorem : ∀ (lst : VendorCall → List Info) (path : String)
    (marker : Option String) (limit : Nat),
    limit ≤ RS_MAX_GET_OBJS_LIMIT →
    (get_objects lst path marker limit).2 =
      [VendorCall.mk (limit + 1) (dirPath path) marker] ∧
    (get_objects lst path marker limit).1 =
      mapInfos (processPage marker limit
        (lst (VendorCall.mk (limit + 1) (dirPath path) marker))) := by
  intro lst path marker limit h
  unfold get_objects
  rw [if_neg (Nat.not_lt.mpr h)]
  exact ⟨rfl, rfl⟩

/-- C9 witness: `limit = 10000` is accepted and the single vendor call requests
10001 entries, one more than `RS_MAX_GET_OBJS_LIMIT`. -/
theorem C9_witness :
    ((get_objects (fun _ => []) ("") none 10000).2 =
      [VendorCall.mk 10001 ("") none]) ∧
    ((get_objects (fun _ => []) ("") none 10000).1 = Except.ok []) :=
  ⟨(C9_theorem (fun _ => []) ("") none 10000 (by decide)).1,
   (C9_theorem (fun _ => []) ("") none 10000 (by decide)).2⟩

/-- C8 (amended): for every accepted limit the vendor prefix is `dirPath path`;
a non-empty `path` is passed as `path ++ SEP` (a separator is appended
unconditionally) and an empty `path` is passed as the empty prefix. -/
theorem C8_theorem :
    (∀ (lst : VendorCall → List Info) (marker : Option String) (limit : Nat)
       (path : String), limit ≤ RS_MAX_GET_OBJS_LIMIT →
       ((get_objects lst path marker limit).2).map VendorCall.pfx =
         [dirPath path]) ∧
    (∀ path : String, path ≠ "" → dirPath path = path ++ SEP) ∧
    dirPath ("") = "" := by
  refine ⟨?_, ?_, rfl⟩
  · intro lst marker limit path h
    unfold get_objects
    rw [if_neg (Nat.not_lt.mpr h)]
    rfl
  · intro path h
    unfold dirPath
    rw [if_neg h]

/-- C8 counterexample: a `pathPrefix` that already ends with the separator is
not left with exactly one trailing separator: `"foo/"` is passed to the vendor
call as `"foo//"`, not `"foo/"`. -/
theorem C8_counterexample :
    dirPath ("foo/") = "foo//" ∧
    ((get_objects (fun _ => []) ("foo/") none 1).2).map VendorCall.pfx =
      ["foo//"] ∧
    ("foo//" : String) ≠ "foo/" :=
  ⟨rfl, rfl, by decide⟩

/-- C8 witness: concrete instances of the amended prefix normalization. -/
theorem C8_witness :
    ((get_objects (fun _ => []) ("abc") none 1).2).map VendorCall.pfx =
      ["abc/"] ∧
    dirPath ("xy") = "xy" ++ SEP :=
  ⟨C8_theorem.1 (fun _ => []) none 1 ("abc") (by decide),
   C8_theorem.2.1 ("xy") (by decide)⟩

/-- A successful `mapInfos` yields one object per entry. -/
theorem mapInfos_length : ∀ (l : List Info) (res : List CBObject),
    mapInfos l = Except.ok res → res.length = l.length := by
  intro l
  induction l with
  | nil =>
    intro res h
    simp only [mapInfos, Except.ok.injEq] at h
    simp [← h]
  | cons i rest ih =>
    intro res h
    unfold mapInfos at h
    cases hfi : from_info i with
    | error e => rw [hfi] at h; exact absurd h (by simp)
    | ok o =>
      rw [hfi] at h
      cases hm : mapInfos rest with
      | error e => rw [hm] at h; exact absurd h (by simp)
      | ok os =>
        rw [hm] at h
        simp only [Except.ok.injEq] at h
        rw [← h]
        simp [ih os hm]

/-- The post-processed page never exceeds the original limit. -/
theorem processPage_length_le (marker : Option String) (limit : Nat)
    (infos : List Info) : (processPage marker limit infos).length ≤ limit := by
  cases infos with
  | nil => simp [processPage]
  | cons first rest =>
    simp only [processPage]
    exact List.length_take_le _ _

/-- C4: whenever `get_objects` returns a sequence, its length is at most the
originally requested limit, for every path, marker, limit and vendor
response. -/
theorem C4_theorem : ∀ (lst : VendorCall → List Info) (path : String)
    (marker : Option String) (limit : Nat) (objs : List CBObject),
    (get_objects lst path marker limit).1 = Except.ok objs →
    objs.length ≤ limit := by
  intro lst path marker limit objs h
  unfold get_objects at h
  by_cases hl : RS_MAX_GET_OBJS_LIMIT < limit
  · rw [if_pos hl] at h
    exact absurd h (by simp)
  · rw [if_neg hl] at h
    have hlen := mapInfos_length _ _ h
    rw [hlen]
    exact processPage_length_le _ _ _

/-- C4 witness: a concrete one-entry page at `limit = 1` yields a sequence of
length one, within the bound. -/
theorem C4_witness :
    ([{ name := "x", obj_type := ObjType.subdir }] : List CBObject).length ≤ 1 :=
  C4_theorem (fun _ => [{ subdir := some ("x") }]) ("") none 1
    [{ name := "x", obj_type := ObjType.subdir }] rfl

/- ## The collapsing rule as the specification words it -/

/-- The duplicate test exactly as the claim words it: the entry is a
pseudo-directory entry (it has a `subdir` key) and its trimmed name equals the
most recently seen named entry's name. -/
def dupAsStated (tracked : Option String) (i : Info) : Bool :=
  (i.subdir).isSome &&
    (match tracked with
     | some s => stripSep ((i.subdir).getD ("")) == s
     | none => false)

/-- The collapsing pass exactly as the claim words it: scan in order, track
the most recently seen named entry's name, drop a pseudo-directory entry
whenever `dupAsStated`, keep every other entry. -/
def specCollapse (tracked : Option String) : List Info → List Info
  | [] => []
  | i :: rest =>
    if dupAsStated (trackName (i.name) tracked) i then
      specCollapse (trackName (i.name) tracked) rest
    else
      i :: specCollapse (trackName (i.name) tracked) rest

/-- The amended duplicate test: as `dupAsStated`, but additionally requiring
the tracked name to be non-empty. -/
def dupNE (tracked : Option String) (i : Info) : Bool :=
  (i.subdir).isSome &&
    (match tracked with
     | some s => (s != "") && (stripSep ((i.subdir).getD ("")) == s)
     | none => false)

/-- The amended collapsing pass: drop a pseudo-directory entry exactly when
its trimmed name equals the non-empty name of the most recently seen named
entry. -/
def specCollapseNE (tracked : Option String) : List Info → List Info
  | [] => []
  | i :: rest =>
    if dupNE (trackName (i.name) tracked) i then
      specCollapseNE (trackName (i.name) tracked) rest
    else
      i :: specCollapseNE (trackName (i.name) tracked) rest

/-- The source's yield condition agrees pointwise with the negation of the
amended duplicate test. -/
theorem keepInfo_eq_not_dupNE (t : Option String) (i : Info) :
    keepInfo t (stripSep ((i.subdir).getD (""))) = !(dupNE t i) := by
  cases hs : i.subdir with
  | none =>
    cases t with
    | none => simp [keepInfo, dupNE, hs]
    | some s =>
      simp only [keepInfo, dupNE, hs, Option.getD_none, Option.isSome_none,
        Bool.false_and, Bool.not_false]
      rcases eq_or_ne s "" with rfl | h
      · simp
      · have hne : stripSep ("") ≠ s := by
          intro he
          exact h (he.symm)
        simp [bne_iff_ne, hne]
  | some x =>
    cases t with
    | none => simp [keepInfo, dupNE, hs]
    | some s =>
      simp only [keepInfo, dupNE, hs, Option.getD_some, Option.isSome_some,
        Bool.true_and, Bool.not_and, bne]
      cases h1 : (s == "") <;> cases h2 : (stripSep x == s) <;> simp [h1, h2]

/-- The source's `_collapse` coincides with the amended claim-side collapsing
pass on every input. -/
theorem collapse_eq_specCollapseNE : ∀ (t : Option String) (infos : List Info),
    _collapse t infos = specCollapseNE t infos := by
  intro t infos
  induction infos generalizing t with
  | nil => rfl
  | cons i rest ih =>
    simp only [_collapse, specCollapseNE, keepInfo_eq_not_dupNE]
    cases h : dupNE (trackName (i.name) t) i <;> simp [h, ih]

/-- An object built by `from_info` from a named (non-`subdir`) entry of
content type `application/directory` has `obj_type = SUBDIR`. -/
theorem from_info_dir_type : ∀ (i : Info) (o : CBObject),
    i.subdir = none → i.content_type = some ("application/directory") →
    from_info i = Except.ok o → o.obj_type = ObjType.subdir := by
  intro i o hs hc h
  unfold from_info at h
  rw [hs] at h
  simp only [Option.isSome_none, Bool.false_eq_true, if_false] at h
  unfold from_file_info at h
  split at h
  · exact absurd h (by simp)
  · split at h
    · exact absurd h (by simp)
    · split at h
      · rename_i nm sz ct heqn heqb heqc
        rw [hc] at heqc
        simp only [Option.some.injEq] at heqc
        simp only [Except.ok.injEq] at h
        rw [← h, ← heqc]
        rfl
      · exact absurd h (by simp)
      · exact absurd h (by simp)
      · exact absurd h (by simp)

/- ## Concrete listing entries used in the scenarios -/

/-- The implied-subdirectory entry `{subdir: "a/"}` of the spec scenario. -/
def infoSubA : Info := { subdir := some ("a/") }

/-- The dummy directory-marker entry of the spec scenario. -/
def infoDirA : Info :=
  { name := some ("a"), content_type := some ("application/directory"),
    bytes := some 0, last_modified := some ("2020-01-01T00:00:00") }

/-- The plain file entry of the spec scenario. -/
def infoFileB : Info :=
  { name := some ("b.txt"), content_type := some ("text/plain"),
    bytes := some 5, last_modified := some ("2020-01-01T00:00:00") }

/-- The spec scenario's raw page, in the order the spec lists it: the implied
subdirectory entry first. -/
def pageC2 : List Info := [infoSubA, infoDirA, infoFileB]

/-- The same page with the real directory-marker entry first, the order in
which the vendor service actually emits the pair and in which the collapsing
pass drops the implied entry. -/
def pageC2A : List Info := [infoDirA, infoSubA, infoFileB]

/-- The object built from `infoDirA`. -/
def objDirA : CBObject :=
  { name := "a", size := some 0,
    content_type := some ("application/directory"),
    last_modified := some (DateTime.mk 2020 1 1 0 0 0),
    obj_type := ObjType.subdir }

/-- The object built from `infoFileB`. -/
def objFileB : CBObject :=
  { name := "b.txt", size := some 5, content_type := some ("text/plain"),
    last_modified := some (DateTime.mk 2020 1 1 0 0 0),
    obj_type := ObjType.file }

/-- A page whose named entry has the empty name, followed by a
pseudo-directory entry whose trimmed name is also empty. -/
def pageEmptyName : List Info :=
  [{ name := some ("") }, { subdir := some ("/") }]

/-- C1 (amended): the collapsing pass drops a pseudo-directory entry exactly
when its trimmed name equals the most recently seen named entry's name and
that name is non-empty, keeping every other entry (`_collapse` equals the
claim-side pass `specCollapseNE` on every input and from every tracked
state); and an object built from a named `application/directory` entry has
`obj_type = SUBDIR`. -/
theorem C1_theorem :
    (∀ (tracked : Option String) (infos : List Info),
      _collapse tracked infos = specCollapseNE tracked infos) ∧
    (∀ (i : Info) (o : CBObject),
      i.subdir = none → i.content_type = some ("application/directory") →
      from_info i = Except.ok o → o.obj_type = ObjType.subdir) :=
  ⟨collapse_eq_specCollapseNE, from_info_dir_type⟩

/-- C1 witness: the characterization at the concrete scenario page, and the
SUBDIR typing at the concrete directory-marker entry. -/
theorem C1_witness :
    (_collapse none pageC2A = specCollapseNE none pageC2A) ∧
    objDirA.obj_type = ObjType.subdir :=
  ⟨C1_theorem.1 none pageC2A, C1_theorem.2 infoDirA objDirA rfl rfl rfl⟩

/-- C1 counterexample: with a named entry whose name is the empty string, the
claim's rule (`specCollapse`, drop exactly on trimmed-name equality) drops the
following pseudo-directory entry, but the source's `_collapse` keeps it: the
tracked name `""` is falsy in Python, so `not name` short-circuits the
comparison. -/
theorem C1_counterexample :
    _collapse none pageEmptyName = pageEmptyName ∧
    specCollapse none pageEmptyName = [{ name := some ("") }] ∧
    _collapse none pageEmptyName ≠ specCollapse none pageEmptyName :=
  ⟨rfl, rfl, by decide⟩

/-- C2 counterexample: on the spec scenario's raw page (implied `a/` entry
listed before the real `a` entry), with `limit = 2` and no marker, the code
keeps both pseudo-directory duplicates and truncation yields
`[Object("a/", SUBDIR), Object("a", SUBDIR)]`, not the claimed
`[Object("a", SUBDIR), Object("b.txt", FILE)]`. -/
theorem C2_counterexample :
    Except.map (List.map (fun o => (o.name, o.obj_type)))
        ((get_objects (fun _ => pageC2) ("") none 2).1) =
      Except.ok [("a/", ObjType.subdir), ("a", ObjType.subdir)] ∧
    ([("a/", ObjType.subdir), ("a", ObjType.subdir)] :
        List (String × ObjType)) ≠
      [("a", ObjType.subdir), ("b.txt", ObjType.file)] :=
  ⟨rfl, by decide⟩

/-- C2 (amended): with the real directory-marker entry listed before its
implied duplicate — the order in which both can collapse — `get_objects`
with `limit = 2` and no marker drops the implied `a/` entry and returns
exactly `[Object("a", SUBDIR), Object("b.txt", FILE)]`, built from the real
entry's metadata. -/
theorem C2_theorem :
    (get_objects (fun _ => pageC2A) ("") none 2).1 =
      Except.ok [objDirA, objFileB] :=
  rfl

/-- The yield condition always holds when the entry's trimmed `subdir` value
is empty. -/
theorem keepInfo_empty (t : Option String) : keepInfo t ("") = true := by
  cases t with
  | none => rfl
  | some s =>
    rcases eq_or_ne s "" with rfl | h
    · simp [keepInfo]
    · have hne : ("" : String) ≠ s := fun he => h (he.symm)
      simp [keepInfo, bne_iff_ne, hne]

/-- Collapsing never inspects the `content_type` of the entries. -/
theorem collapse_content_type_irrelevant :
    ∀ (t : Option String) (infos : List Info) (ct : Option String),
    _collapse t (infos.map (fun i => { i with content_type := ct })) =
      (_collapse t infos).map (fun i => { i with content_type := ct }) := by
  intro t infos ct
  induction infos generalizing t with
  | nil => rfl
  | cons i rest ih =>
    rcases i with ⟨nm, sd, bt, ct0, lm⟩
    cases h : keepInfo (trackName nm t) (stripSep (sd.getD (""))) <;>
      simp [_collapse, h, ih]

/-- Before any named entry has been seen, every entry — in particular every
pseudo-directory entry — is kept. -/
theorem collapse_no_named : ∀ (infos : List Info),
    (∀ i ∈ infos, i.name = none) → _collapse none infos = infos := by
  intro infos h
  induction infos with
  | nil => rfl
  | cons i rest ih =>
    have hi : i.name = none := h i (by simp)
    have hrest : ∀ j ∈ rest, j.name = none := fun j hj => h j (by simp [hj])
    simp [_collapse, hi, trackName, keepInfo, ih hrest]

/-- A pseudo-directory duplicate is dropped even when another pseudo-directory
entry intervenes between it and the named entry (pseudo-directory entries do
not reset the tracked name), with no condition on the named entry's content
type. -/
theorem collapse_nonadjacent :
    ∀ (tracked : Option String) (rest : List Info) (eN eP1 eP2 : Info)
      (N : String),
    eN.name = some N → N ≠ "" → eN.subdir = none →
    eP1.name = none → stripSep ((eP1.subdir).getD ("")) ≠ N →
    eP2.name = none → stripSep ((eP2.subdir).getD ("")) = N →
    _collapse tracked (eN :: eP1 :: eP2 :: rest) =
      eN :: eP1 :: _collapse (some N) rest := by
  intro tracked rest eN eP1 eP2 N h1 h2 h3 h4 h5 h6 h7
  have k1 : keepInfo (some N) (stripSep ((eN.subdir).getD (""))) = true := by
    rw [h3]
    exact keepInfo_empty _
  have k2 : keepInfo (some N) (stripSep ((eP1.subdir).getD (""))) = true := by
    simp [keepInfo, bne_iff_ne, h5]
  have k3 : keepInfo (some N) (stripSep ((eP2.subdir).getD (""))) = false := by
    simp [keepInfo, h7, h2]
  simp [_collapse, h1, h4, h6, trackName, k1, k2, k3]

/-- C10 (amended): the collapsing pass drops non-adjacent duplicates, never
inspects content type, keeps the tracked name across pseudo-directory entries,
and keeps every pseudo-directory entry seen before any named entry; the drop
requires the tracked name to be non-empty. -/
theorem C10_theorem :
    (∀ (tracked : Option String) (infos : List Info) (ct : Option String),
      _collapse tracked (infos.map (fun i => { i with content_type := ct })) =
        (_collapse tracked infos).map
          (fun i => { i with content_type := ct })) ∧
    (∀ infos : List Info,
      (∀ i ∈ infos, i.name = none) → _collapse none infos = infos) ∧
    (∀ (tracked : Option String) (rest : List Info) (eN eP1 eP2 : Info)
       (N : String),
      eN.name = some N → N ≠ "" → eN.subdir = none →
      eP1.name = none → stripSep ((eP1.subdir).getD ("")) ≠ N →
      eP2.name = none → stripSep ((eP2.subdir).getD ("")) = N →
      _collapse tracked (eN :: eP1 :: eP2 :: rest) =
        eN :: eP1 :: _collapse (some N) rest) :=
  ⟨collapse_content_type_irrelevant, collapse_no_named, collapse_nonadjacent⟩

/-- A named plain-file entry used in the C10 witness. -/
def infoNameN : Info :=
  { name := some ("n"), content_type := some ("text/plain"),
    bytes := some 1, last_modified := some ("2020-01-01T00:00:00") }

/-- An unrelated pseudo-directory entry used in the C10 witness. -/
def infoSubQ : Info := { subdir := some ("q/") }

/-- A pseudo-directory entry trimming to `"n"` used in the C10 witness. -/
def infoSubN : Info := { subdir := some ("n//") }

/-- C10 witness: the three parts of the amended claim at concrete pages — the
duplicate of the plain file `"n"` is dropped across the intervening entry. -/
theorem C10_witness :
    (_collapse none
        (pageC2A.map (fun i => { i with content_type := some ("x") })) =
      (_collapse none pageC2A).map
        (fun i => { i with content_type := some ("x") })) ∧
    (_collapse none [infoSubA] = [infoSubA]) ∧
    (_collapse none [infoNameN, infoSubQ, infoSubN] =
      infoNameN :: infoSubQ :: _collapse (some ("n")) []) :=
  ⟨C10_theorem.1 none pageC2A (some ("x")),
   C10_theorem.2.1 [infoSubA] (by decide),
   C10_theorem.2.2 none [] infoNameN infoSubQ infoSubN ("n")
     rfl (by decide) rfl rfl (by decide) rfl rfl⟩

/-- The C10 counterexample page: a named entry with the empty name followed by
a pseudo-directory entry trimming to the empty string. -/
def pageEmptyName2 : List Info :=
  [{ name := some ("") }, { subdir := some ("//") }]

/-- C10 counterexample: by the claim's rule the pseudo-directory entry's
trimmed name `""` equals the most recently seen named entry's name `""` and so
should be dropped, but the source's `_collapse` keeps it: the tracked empty
name is falsy in Python. -/
theorem C10_counterexample :
    _collapse none pageEmptyName2 = pageEmptyName2 ∧
    specCollapse none pageEmptyName2 = [{ name := some ("") }] ∧
    _collapse none pageEmptyName2 ≠ specCollapse none pageEmptyName2 :=
  ⟨rfl, rfl, by decide⟩

/-- C5 (amended): the vendor listing is requested with `limit + 1` entries,
and whenever a non-empty marker is provided and the first raw result's trimmed
`subdir` value equals the marker, that first entry is excluded: the result is
computed from the remaining entries only. -/
theorem C5_theorem :
    ∀ (lst : VendorCall → List Info) (path : String) (m : String)
      (limit : Nat) (first : Info) (rest : List Info),
    limit ≤ RS_MAX_GET_OBJS_LIMIT →
    lst (VendorCall.mk (limit + 1) (dirPath path) (some m)) = first :: rest →
    m ≠ "" →
    stripSep ((first.subdir).getD ("")) = m →
    get_objects lst path (some m) limit =
      (mapInfos ((_collapse none rest).take limit),
       [VendorCall.mk (limit + 1) (dirPath path) (some m)]) := by
  intro lst path m limit first rest hl hpage hm hstrip
  unfold get_objects
  rw [if_neg (Nat.not_lt.mpr hl), hpage]
  simp only [processPage]
  rw [if_pos ⟨hm, hstrip⟩]

/-- The C5 witness page's first entry: an implied subdirectory that trims to
the marker `"m"`. -/
def infoSubM : Info := { subdir := some ("m/") }

/-- The C5 witness page's second entry. -/
def infoSubZ : Info := { subdir := some ("z") }

/-- C5 witness: with marker `"m"` and first raw entry `{subdir: "m/"}`, the
vendor call requests `limit + 1 = 6` entries and the first entry is excluded
from the processed result. -/
theorem C5_witness :
    get_objects (fun _ => [infoSubM, infoSubZ]) ("") (some ("m")) 5 =
      (mapInfos ((_collapse none [infoSubZ]).take 5),
       [VendorCall.mk 6 ("") (some ("m"))]) :=
  C5_theorem (fun _ => [infoSubM, infoSubZ]) ("") ("m") 5 infoSubM [infoSubZ]
    (by decide) rfl (by decide) rfl

/-- The C5 counterexample page: one pseudo-directory entry trimming to the
empty string. -/
def pageC5 : List Info := [{ subdir := some ("/") }]

/-- C5 counterexample: with the provided marker `""` and a first raw result
whose trimmed pseudo-directory name equals that marker, the entry is NOT
excluded: `if marker and ...` treats the empty marker as falsy, so the result
still contains the entry. -/
theorem C5_counterexample :
    Except.map (List.map CBObject.name)
        ((get_objects (fun _ => pageC5) ("") (some ("")) 1).1) =
      Except.ok ["/"] ∧
    stripSep ("/") = "" ∧
    (["/"] : List String) ≠ [] :=
  ⟨rfl, rfl, by decide⟩

/-- C6: the static table maps the vendor's missing-container exception to
NoContainerException and the missing-object exception to NoObjectException;
any other vendor exception becomes a generic CloudException carrying the
original message; `get_object` on a missing path fails with NoObjectException
and `_get_container` on a missing name fails with NoContainerException. -/
theorem C6_theorem :
    (∀ msg : String,
      wrap_rs_errors (VendorExc.noSuchContainer msg) =
        CloudErr.noContainer msg) ∧
    (∀ msg : String,
      wrap_rs_errors (VendorExc.noSuchObject msg) = CloudErr.noObject msg) ∧
    (∀ msg : String,
      translations (VendorExc.other msg) = none ∧
      wrap_rs_errors (VendorExc.other msg) = CloudErr.cloud msg) ∧
    (∀ (objs : String → Option NativeObj) (path : String),
      objs path = none →
      get_object objs path = Except.error (CloudErr.noObject path)) ∧
    (∀ (conts : String → Option NativeContainer) (path : String),
      conts path = none →
      rs_get_container conts path =
        Except.error (CloudErr.noContainer path)) := by
  refine ⟨fun msg => rfl, fun msg => rfl, fun msg => ⟨rfl, rfl⟩, ?_, ?_⟩
  · intro objs path h
    unfold get_object
    rw [h]
    rfl
  · intro conts path h
    unfold rs_get_container
    rw [h]
    rfl

/-- C6 witness: fetching a nonexistent object path fails with
NoObjectException, and fetching a nonexistent container fails with
NoContainerException. -/
theorem C6_witness :
    get_object (fun _ => none) ("missing/path") =
      Except.error (CloudErr.noObject ("missing/path")) ∧
    rs_get_container (fun _ => none) ("missing") =
      Except.error (CloudErr.noContainer ("missing")) :=
  ⟨C6_theorem.2.2.2.1 (fun _ => none) ("missing/path") rfl,
   C6_theorem.2.2.2.2 (fun _ => none) ("missing") rfl⟩

/-- `takeWhile` passes over a block of characters that all satisfy the
predicate. -/
theorem takeWhile_append_all {p : Char → Bool} :
    ∀ (l1 l2 : List Char), (∀ c ∈ l1, p c = true) →
    (l1 ++ l2).takeWhile p = l1 ++ l2.takeWhile p := by
  intro l1 l2 h
  induction l1 with
  | nil => simp
  | cons c cs ih =>
    have hc : p c = true := h c (by simp)
    simp [List.takeWhile_cons, hc, ih (fun d hd => h d (by simp [hd]))]

/-- The info entry of the C7 scenario with a fractional-second timestamp. -/
def infoF1 : Info :=
  { name := some ("f"), bytes := some 1, content_type := some ("text/plain"),
    last_modified := some ("2010-04-15T01:52:13.919070") }

/-- The info entry of the C7 scenario with the fraction removed. -/
def infoF2 : Info :=
  { name := some ("f"), bytes := some 1, content_type := some ("text/plain"),
    last_modified := some ("2010-04-15T01:52:13") }

/-- The fetched native object of the C7 scenario, with an RFC-1123-like
timestamp. -/
def natObjC7 : NativeObj :=
  { name := "o", size := 1, content_type := "text/plain",
    last_modified := "Thu, 07 Jun 2007 18:57:07 GMT" }

/-- C7: the listing-entry path parses ISO-like timestamps with any sub-second
fraction truncated (appending `.fraction` to a dot-free string never changes
the parse), so `from_file_info` gives the same object for
`"2010-04-15T01:52:13.919070"` and `"2010-04-15T01:52:13"`, which parse to
2010-04-15 01:52:13; and the fetched-object path parses
`"Thu, 07 Jun 2007 18:57:07 GMT"` to 2007-06-07 18:57:07. -/
theorem C7_theorem :
    (∀ (cs frac : List Char), '.' ∉ cs →
      parse_iso_lm (String.mk (cs ++ '.' :: frac)) =
        parse_iso_lm (String.mk cs)) ∧
    from_file_info infoF1 = from_file_info infoF2 ∧
    parse_iso_lm ("2010-04-15T01:52:13") =
      some (DateTime.mk 2010 4 15 1 52 13) ∧
    from_obj natObjC7 =
      Except.ok { name := "o", size := some 1,
                  content_type := some ("text/plain"),
                  last_modified := some (DateTime.mk 2007 6 7 18 57 7),
                  obj_type := ObjType.file } := by
  refine ⟨?_, rfl, rfl, rfl⟩
  intro cs frac h
  have hall : ∀ c ∈ cs, (c != '.') = true := by
    intro c hc
    have hne : c ≠ '.' := fun he => h (he ▸ hc)
    simp [bne_iff_ne, hne]
  unfold parse_iso_lm
  have ht : (String.mk (cs ++ '.' :: frac)).toList = cs ++ '.' :: frac := rfl
  have ht2 : (String.mk cs).toList = cs := rfl
  rw [ht, ht2, takeWhile_append_all cs ('.' :: frac) hall]
  have h2 : (('.' :: frac).takeWhile (fun c => c != '.')) = [] := by
    simp [List.takeWhile_cons]
  have h3 : cs.takeWhile (fun c => c != '.') = cs := by
    have := takeWhile_append_all cs ([] : List Char) hall
    simpa using this
  rw [h2, h3, List.append_nil]

/-- C7 witness: the fraction-truncation property at the concrete scenario
strings. -/
theorem C7_witness :
    parse_iso_lm (String.mk ((("2010-04-15T01:52:13").toList) ++
        '.' :: (("919070").toList))) =
      parse_iso_lm (String.mk (("2010-04-15T01:52:13").toList)) :=
  C7_theorem.1 (("2010-04-15T01:52:13").toList) (("919070").toList)
    (by decide)
